import Mathlib

/-!
Shallow embedding of the agar3d authoritative server core
(`src/server/game/serverPlayer.js`, `src/server/game/serverFood.js`,
`src/server/game/gameServer.js` and the `PhysicsSystem` physics module),
together with theorems settling the specification claims.

JavaScript numbers are modelled as exact rationals.  The irrational
library functions the server calls (`Math.cbrt`, `Math.sqrt`, `Math.sin`)
are abstracted into a `JsMath` record of rational-valued interpretations;
every theorem quantifies over all interpretations, so each proved fact
holds in particular for the true real-valued functions.  Sources of
nondeterminism (`Date.now`-based ids and timestamps, `Math.random`-based
spawn data, the quaternion-derived facing direction) are passed in as
explicit parameters.
-/

namespace Agar3d

/-- 3D vector with exact rational coordinates (models three.js `Vector3`). -/
structure Vec3 where
  x : ℚ
  y : ℚ
  z : ℚ
deriving DecidableEq

def Vec3.zero : Vec3 := ⟨0, 0, 0⟩

def Vec3.add (a b : Vec3) : Vec3 := ⟨a.x + b.x, a.y + b.y, a.z + b.z⟩

def Vec3.sub (a b : Vec3) : Vec3 := ⟨a.x - b.x, a.y - b.y, a.z - b.z⟩

/-- Scalar multiple of a vector (`multiplyScalar`). -/
def Vec3.smul (c : ℚ) (a : Vec3) : Vec3 := ⟨c * a.x, c * a.y, c * a.z⟩

def Vec3.neg (a : Vec3) : Vec3 := ⟨-a.x, -a.y, -a.z⟩

def Vec3.dot (a b : Vec3) : ℚ := a.x * b.x + a.y * b.y + a.z * b.z

/-- Squared euclidean length. -/
def Vec3.lenSq (a : Vec3) : ℚ := Vec3.dot a a

/-- Abstract interpretations of the irrational JavaScript `Math` functions
used by the server (`Math.cbrt`, `Math.sqrt`, `Math.sin`).  The embedding
is parametrised over an arbitrary interpretation. -/
structure JsMath where
  cbrt : ℚ → ℚ
  sqrt : ℚ → ℚ
  sin : ℚ → ℚ

/-- The trivial interpretation, used to instantiate concrete test states in
witnesses; the statements evaluated with it do not depend on the values of
`Math.cbrt`, `Math.sqrt` or `Math.sin`. -/
def jm0 : JsMath := ⟨fun _ => 0, fun _ => 0, fun _ => 0⟩

/-- three.js `Vector3.length()`. -/
def jsLength (jm : JsMath) (v : Vec3) : ℚ := jm.sqrt v.lenSq

/-- three.js `Vector3.normalize()`, which is `divideScalar(this.length() || 1)`. -/
def jsNormalize (jm : JsMath) (v : Vec3) : Vec3 :=
  let len := jsLength jm v
  Vec3.smul (1 / (if len = 0 then 1 else len)) v

/-- JavaScript `option || default` on an optional number: besides an absent
value, a present `0` is falsy and also selects the default. -/
def jsOrQ (v : Option ℚ) (d : ℚ) : ℚ :=
  match v with
  | none => d
  | some x => if x = 0 then d else x

/-- The option-bag argument of the `ServerPlayer` constructor.  `split`'s
`fragmentConfig` provides `velocity`, `mass`, `isFragment` and `parent`;
`handlePlayerJoin` provides neither, so the defaults apply. -/
structure PlayerConfig where
  id : String
  username : String
  position : Vec3
  color : String
  velocity : Option Vec3 := none
  mass : Option ℚ := none
  radius : Option ℚ := none
  isFragment : Bool := false
  parent : Option String := none
deriving DecidableEq

/-- State of one server-side player (`ServerPlayer`).  The quaternion
`rotation` field is not stored; the facing direction derived from it is
passed explicitly to the operations that use it. -/
structure ServerPlayer where
  id : String
  username : String
  position : Vec3
  scale : Vec3
  color : String
  velocity : Vec3
  mass : ℚ
  radius : ℚ
  maxSpeed : ℚ
  score : ℚ
  foodEaten : ℕ
  playersEaten : ℕ
  timeAlive : ℚ
  isFragment : Bool
  parentId : Option String
  splitForce : ℚ
  splitForceDecay : ℚ
deriving DecidableEq

/-- The `ServerPlayer` constructor.  `config.mass || 1` and
`config.radius || 1` keep JavaScript falsiness; a fragment starts with
`splitForce = 20` decaying at `2` per second. -/
def ServerPlayer.make (config : PlayerConfig) : ServerPlayer :=
  { id := config.id
    username := config.username
    position := config.position
    scale := ⟨1, 1, 1⟩
    color := config.color
    velocity := config.velocity.getD Vec3.zero
    mass := jsOrQ config.mass 1
    radius := jsOrQ config.radius 1
    maxSpeed := 10
    score := 0
    foodEaten := 0
    playersEaten := 0
    timeAlive := 0
    isFragment := config.isFragment
    parentId := config.parent
    splitForce := if config.isFragment then 20 else 0
    splitForceDecay := if config.isFragment then 2 else 0 }

/-- `ServerPlayer.updateSize`: re-derive radius (and scale) from mass via
`Math.cbrt`. -/
def ServerPlayer.updateSize (jm : JsMath) (p : ServerPlayer) : ServerPlayer :=
  let r := jm.cbrt p.mass
  { p with radius := r, scale := ⟨r, r, r⟩ }

/-- `ServerPlayer.grow(amount)`: add mass, re-derive size, award score
(`amount * 10`), count the consumption and step the speed cap down by the
mass tier `floor(mass / 10)`. -/
def ServerPlayer.grow (jm : JsMath) (amount : ℚ) (p : ServerPlayer) : ServerPlayer :=
  let p1 := ServerPlayer.updateSize jm { p with mass := p.mass + amount }
  let p2 := { p1 with score := p1.score + amount * 10, foodEaten := p1.foodEaten + 1 }
  let massTier : ℤ := ⌊p2.mass / 10⌋
  { p2 with maxSpeed := 10 / (1 + (massTier : ℚ) * (3 / 10)) }

/-- `ServerPlayer.consumePlayer(otherPlayer)`: grow by `0.8` of the other
player's mass and count the kill. -/
def ServerPlayer.consumePlayer (jm : JsMath) (p other : ServerPlayer) : ServerPlayer :=
  let growAmount := other.mass * (8 / 10)
  let p1 := ServerPlayer.grow jm growAmount p
  { p1 with playersEaten := p1.playersEaten + 1 }

/-- `ServerPlayer.update(deltaTime)`: integrate position, apply the decaying
fragment ejection force, apply multiplicative drag `0.95`, accumulate
`timeAlive`. -/
def ServerPlayer.update (jm : JsMath) (deltaTime : ℚ) (p : ServerPlayer) : ServerPlayer :=
  let pos1 := p.position.add (Vec3.smul deltaTime p.velocity)
  let next :=
    if p.isFragment = true ∧ 0 < p.splitForce then
      let direction := jsNormalize jm p.velocity
      let additionalForce := Vec3.smul (p.splitForce * deltaTime) direction
      let sf1 := p.splitForce - p.splitForceDecay * deltaTime
      (pos1.add additionalForce, if sf1 < 0 then 0 else sf1)
    else (pos1, p.splitForce)
  { p with position := next.1
           splitForce := next.2
           velocity := Vec3.smul (95 / 100) p.velocity
           timeAlive := p.timeAlive + deltaTime }

/-- `ServerPlayer.split()`: `null` below mass `2`; otherwise halve the mass,
re-derive size and return the fragment's constructor configuration.
`ejectionDir` stands for the quaternion-rotated normalized `(0,0,-1)` facing
direction and `fragId` for the `Date.now()`-based fragment id. -/
def ServerPlayer.split (jm : JsMath) (ejectionDir : Vec3) (fragId : String)
    (p : ServerPlayer) : ServerPlayer × Option PlayerConfig :=
  if p.mass < 2 then (p, none)
  else
    let newMass := p.mass / 2
    let p1 := ServerPlayer.updateSize jm { p with mass := newMass }
    let spawnPosition := p1.position.add (Vec3.smul (p1.radius + 1 / 2) ejectionDir)
    let fragmentConfig : PlayerConfig :=
      { id := fragId
        username := p1.username
        position := spawnPosition
        color := p1.color
        velocity := some (Vec3.smul 20 ejectionDir)
        mass := some newMass
        isFragment := true
        parent := some p1.id }
    (p1, some fragmentConfig)

/-- `ServerPlayer.boost()` is an unimplemented stub in the source (its whole
body is the comment "To be implemented"): it mutates nothing and returns
`undefined`, modelled as `none`. -/
def ServerPlayer.boost (p : ServerPlayer) : ServerPlayer × Option Unit := (p, none)

/-- State of one food item (`ServerFood`). -/
structure ServerFood where
  id : String
  position : Vec3
  basePosition : Vec3
  scale : Vec3
  color : String
  value : ℚ
  hoverPhase : ℚ
  hoverSpeed : ℚ
  hoverHeight : ℚ
deriving DecidableEq

/-- `ServerFood.update(deltaTime)`: advance the cosmetic hover animation. -/
def ServerFood.update (jm : JsMath) (deltaTime : ℚ) (f : ServerFood) : ServerFood :=
  let phase := f.hoverPhase + f.hoverSpeed * deltaTime
  { f with hoverPhase := phase
           position := ⟨f.position.x, f.basePosition.y + jm.sin phase * f.hoverHeight,
                        f.position.z⟩ }

/-- One ejected mass orb, as built by `handlePlayerEjectMass`.  Times are in
milliseconds (`Date.now()` scale). -/
structure MassOrb where
  id : String
  position : Vec3
  velocity : Vec3
  ownerId : String
  mass : ℚ
  radius : ℚ
  color : String
  creationTime : ℚ
  lifespan : ℚ
deriving DecidableEq

/-- Food consumption record pushed by `PhysicsSystem.checkFoodCollisions`. -/
structure ConsumedFood where
  foodId : String
  playerId : String
deriving DecidableEq

/-- The one-shot notices the server emits that matter to the claims. -/
inductive Event where
  | foodConsumed (foodId playerId : String)
  | playerConsumed (predatorId preyId : String)
  | playerSplit (parentId fragmentId : String)
  | playerBoosted (playerId : String)
  | massEjected (massId : String)
  | massConsumed (massId : String)
deriving DecidableEq

def Event.isPlayerConsumed : Event → Bool
  | Event.playerConsumed _ _ => true
  | _ => false

/-- `PhysicsSystem.sphereCollision`: squared-distance sphere overlap test. -/
def PhysicsSystem.sphereCollision (pos1 : Vec3) (radius1 : ℚ) (pos2 : Vec3)
    (radius2 : ℚ) : Bool :=
  let dx := pos2.x - pos1.x
  let dy := pos2.y - pos1.y
  let dz := pos2.z - pos1.z
  let distanceSquared := dx * dx + dy * dy + dz * dz
  let sumRadii := radius1 + radius2
  decide (distanceSquared ≤ sumRadii * sumRadii)

/-- `PhysicsSystem.constrainToWorld`: clamp the player's position to the
world cuboid and zero the velocity on any axis whose final position sits on
a boundary. -/
def PhysicsSystem.constrainToWorld (worldSize : Vec3) (p : ServerPlayer) : ServerPlayer :=
  let halfX := worldSize.x / 2
  let halfY := worldSize.y / 2
  let halfZ := worldSize.z / 2
  let px := max (-halfX) (min halfX p.position.x)
  let py := max (-halfY) (min halfY p.position.y)
  let pz := max (-halfZ) (min halfZ p.position.z)
  let vx := if px = -halfX ∨ px = halfX then 0 else p.velocity.x
  let vy := if py = -halfY ∨ py = halfY then 0 else p.velocity.y
  let vz := if pz = -halfZ ∨ pz = halfZ then 0 else p.velocity.z
  { p with position := ⟨px, py, pz⟩, velocity := ⟨vx, vy, vz⟩ }

/-- `PhysicsSystem.checkFoodCollisions`: scan the food map in order; on
overlap (against the food's `scale.x`, the scaled-down collision radius)
record the consumption and grow the player.  Food is not removed here — the
game server deletes it afterwards. -/
def PhysicsSystem.checkFoodCollisions (jm : JsMath) (p : ServerPlayer) :
    List ServerFood → ServerPlayer × List ConsumedFood
  | [] => (p, [])
  | food :: rest =>
    if PhysicsSystem.sphereCollision p.position p.radius food.position food.scale.x then
      let p1 := ServerPlayer.grow jm food.value p
      let next := PhysicsSystem.checkFoodCollisions jm p1 rest
      (next.1, ⟨food.id, p.id⟩ :: next.2)
    else
      let next := PhysicsSystem.checkFoodCollisions jm p rest
      (next.1, next.2)

/-- `PhysicsSystem.resolveCollision`: comparable-mass elastic bounce with
mass-proportional separation, an impulse along the separation axis, and a
`0.9` damping of both velocities. -/
def PhysicsSystem.resolveCollision (jm : JsMath) (player1 player2 : ServerPlayer) :
    ServerPlayer × ServerPlayer :=
  let temp0 := Vec3.sub player2.position player1.position
  let distance := jm.sqrt temp0.lenSq
  let temp := jsNormalize jm temp0
  let sumRadii := player1.radius + player2.radius
  let overlapDistance := sumRadii - distance
  if 0 < overlapDistance then
    let totalMass := player1.mass + player2.mass
    let push1 := player2.mass / totalMass * overlapDistance * (1 / 2)
    let push2 := player1.mass / totalMass * overlapDistance * (1 / 2)
    let p1Dot := player1.velocity.dot temp
    let p2Dot := player2.velocity.dot temp.neg
    let p1Factor := 2 * player2.mass * p2Dot / totalMass
    let p2Factor := 2 * player1.mass * p1Dot / totalMass
    ({ player1 with
         position := player1.position.sub (Vec3.smul push1 temp)
         velocity := Vec3.smul (9 / 10) (player1.velocity.add (Vec3.smul p1Factor temp)) },
     { player2 with
         position := player2.position.add (Vec3.smul push2 temp)
         velocity := Vec3.smul (9 / 10)
           (player2.velocity.add (Vec3.smul p2Factor temp.neg)) })
  else (player1, player2)

/-- Inner loop of `PhysicsSystem.checkPlayerCollisions`: scan `player1`
against the tail.  A consumption (mass ratio above `1.2`) grows the
consumer in place and returns `(predatorId, preyId)` immediately — the prey
stays in the collection; a comparable-mass overlap bounces both players and
the scan continues. -/
def PhysicsSystem.innerPairScan (jm : JsMath) (player1 : ServerPlayer) :
    List ServerPlayer → ServerPlayer × List ServerPlayer × Option (String × String)
  | [] => (player1, [], none)
  | player2 :: rest =>
    if PhysicsSystem.sphereCollision player1.position player1.radius
        player2.position player2.radius then
      if player1.mass > player2.mass * (12 / 10) then
        (ServerPlayer.consumePlayer jm player1 player2, player2 :: rest,
         some (player1.id, player2.id))
      else if player2.mass > player1.mass * (12 / 10) then
        (player1, ServerPlayer.consumePlayer jm player2 player1 :: rest,
         some (player2.id, player1.id))
      else
        let bounced := PhysicsSystem.resolveCollision jm player1 player2
        let next := PhysicsSystem.innerPairScan jm bounced.1 rest
        (next.1, bounced.2 :: next.2.1, next.2.2)
    else
      let next := PhysicsSystem.innerPairScan jm player1 rest
      (next.1, player2 :: next.2.1, next.2.2)

/-- Outer loop of `PhysicsSystem.checkPlayerCollisions`.  The fuel counts
the remaining iterations of the source's index-based outer `for` loop; it
is initialised to the array length, which the loop body never changes. -/
def PhysicsSystem.checkPlayerCollisionsAux (jm : JsMath) :
    ℕ → List ServerPlayer → List ServerPlayer × Option (String × String)
  | _, [] => ([], none)
  | 0, players => (players, none)
  | fuel + 1, player1 :: rest =>
    let inner := PhysicsSystem.innerPairScan jm player1 rest
    match inner.2.2 with
    | some e => (inner.1 :: inner.2.1, some e)
    | none =>
      let outer := PhysicsSystem.checkPlayerCollisionsAux jm fuel inner.2.1
      (inner.1 :: outer.1, outer.2)

/-- `PhysicsSystem.checkPlayerCollisions`: first consumption event found (if
any) plus the mutated player collection. -/
def PhysicsSystem.checkPlayerCollisions (jm : JsMath) (players : List ServerPlayer) :
    List ServerPlayer × Option (String × String) :=
  PhysicsSystem.checkPlayerCollisionsAux jm players.length players

/-- Per-player phase of `PhysicsSystem.update`: integrate, constrain to the
world, eat overlapping food. -/
def PhysicsSystem.updateLoop (jm : JsMath) (worldSize : Vec3) (deltaTime : ℚ)
    (foods : List ServerFood) :
    List ServerPlayer → List ServerPlayer × List ConsumedFood
  | [] => ([], [])
  | p :: rest =>
    let p1 := ServerPlayer.update jm deltaTime p
    let p2 := PhysicsSystem.constrainToWorld worldSize p1
    let eaten := PhysicsSystem.checkFoodCollisions jm p2 foods
    let next := PhysicsSystem.updateLoop jm worldSize deltaTime foods rest
    (eaten.1 :: next.1, eaten.2 ++ next.2)

/-- `PhysicsSystem.update`: per-player integration and food consumption,
then a player-vs-player collision pass whose returned consumption event is
discarded (source: a bare `this.checkPlayerCollisions(players)` statement)
— the growth and bounce mutations it performs remain. -/
def PhysicsSystem.update (jm : JsMath) (worldSize : Vec3) (deltaTime : ℚ)
    (players : List ServerPlayer) (foods : List ServerFood) :
    List ServerPlayer × List ConsumedFood :=
  let moved := PhysicsSystem.updateLoop jm worldSize deltaTime foods players
  let collided := PhysicsSystem.checkPlayerCollisions jm moved.1
  (collided.1, moved.2)

/-! ### The game server (`gameServer.js`)

The `players` and `foods` JavaScript `Map`s are modelled as lists in
insertion order; every insertion uses the entity's own `id` as the key.
`Map.get` is first-match lookup, in-place mutation of a looked-up entity
updates the first matching entry, `Map.set` replaces an existing key in
place or appends, and `Map.delete` removes the first matching entry. -/

def mapGet (players : List ServerPlayer) (pid : String) : Option ServerPlayer :=
  players.find? (fun p => p.id == pid)

/-- In-place mutation of the entity `Map.get` returned. -/
def mapMutate (players : List ServerPlayer) (pid : String)
    (f : ServerPlayer → ServerPlayer) : List ServerPlayer :=
  match players with
  | [] => []
  | p :: rest => if p.id = pid then f p :: rest else p :: mapMutate rest pid f

/-- JavaScript `Map.set` keyed by the player's own id. -/
def mapSet (players : List ServerPlayer) (q : ServerPlayer) : List ServerPlayer :=
  if players.any (fun p => p.id == q.id) then
    players.map (fun p => if p.id == q.id then q else p)
  else players ++ [q]

/-- JavaScript `Map.delete`. -/
def mapDelete (players : List ServerPlayer) (pid : String) : List ServerPlayer :=
  List.eraseP (fun p => p.id == pid) players

/-- Game settings from the `GameServer` constructor. -/
def GameServer.worldSize : Vec3 := ⟨500, 500, 500⟩

def GameServer.maxPlayers : ℕ := 50

def GameServer.maxFood : ℕ := 1000

def GameServer.minFood : ℕ := 800

def GameServer.foodSpawnRate : ℚ := 20

/-- Survival-scoring step at the top of `GameServer.update`: award 10 score
when the player crosses a full-minute-alive boundary. -/
def GameServer.survivalScore (deltaTime : ℚ) (p : ServerPlayer) : ServerPlayer :=
  let previousMinutesAlive : ℤ := ⌊(p.timeAlive - deltaTime) / 60⌋
  let currentMinutesAlive : ℤ := ⌊p.timeAlive / 60⌋
  if previousMinutesAlive < currentMinutesAlive then
    { p with score := p.score + 10 }
  else p

/-- `GameServer.spawnFood`: no-op at the food cap, otherwise add one food
item.  `spawner i` stands for the `Math.random`-based food constructed on
the i-th spawn of the tick (random position and color, value in
`[0.1, 0.2]`, scale `0.5`). -/
def GameServer.spawnFood (spawner : ℕ → ServerFood) (idx : ℕ)
    (foods : List ServerFood) : List ServerFood :=
  if GameServer.maxFood ≤ foods.length then foods
  else foods ++ [spawner idx]

/-- The `for` loop of `GameServer.updateFood` calling `spawnFood`
`foodToSpawn` times. -/
def GameServer.spawnLoop (spawner : ℕ → ServerFood) :
    ℕ → ℕ → List ServerFood → List ServerFood
  | _, 0, foods => foods
  | idx, k + 1, foods =>
    GameServer.spawnLoop spawner (idx + 1) k (GameServer.spawnFood spawner idx foods)

/-- `GameServer.updateFood`: animate every food item, then — only when the
population is below `minFood` — spawn
`min(ceil(foodSpawnRate * deltaTime), maxFood - size)` new items. -/
def GameServer.updateFood (jm : JsMath) (spawner : ℕ → ServerFood) (deltaTime : ℚ)
    (foods : List ServerFood) : List ServerFood :=
  let foods1 := foods.map (ServerFood.update jm deltaTime)
  if foods1.length < GameServer.minFood then
    let foodToSpawn : ℤ :=
      min ⌈GameServer.foodSpawnRate * deltaTime⌉
        ((GameServer.maxFood : ℤ) - (foods1.length : ℤ))
    GameServer.spawnLoop spawner 0 foodToSpawn.toNat foods1
  else foods1

/-- `k` successive ticks of the food-maintenance step `updateFood`, with a
possibly different random spawn stream on each tick. -/
def GameServer.foodTicks (jm : JsMath) (spawnerSeq : ℕ → ℕ → ServerFood) (deltaTime : ℚ) :
    ℕ → List ServerFood → List ServerFood
  | 0, foods => foods
  | k + 1, foods =>
    GameServer.foodTicks jm spawnerSeq deltaTime k
      (GameServer.updateFood jm (spawnerSeq k) deltaTime foods)

/-- `GameServer.constrainMassOrbToWorld`: mass orbs bounce off the world
boundary with a `-0.8` restitution factor (unlike players, which clamp). -/
def GameServer.constrainMassOrbToWorld (massOrb : MassOrb) : MassOrb :=
  let halfX := GameServer.worldSize.x / 2
  let halfY := GameServer.worldSize.y / 2
  let halfZ := GameServer.worldSize.z / 2
  let nx :=
    if massOrb.position.x < -halfX then (-halfX, massOrb.velocity.x * (-(8 / 10)))
    else if halfX < massOrb.position.x then (halfX, massOrb.velocity.x * (-(8 / 10)))
    else (massOrb.position.x, massOrb.velocity.x)
  let ny :=
    if massOrb.position.y < -halfY then (-halfY, massOrb.velocity.y * (-(8 / 10)))
    else if halfY < massOrb.position.y then (halfY, massOrb.velocity.y * (-(8 / 10)))
    else (massOrb.position.y, massOrb.velocity.y)
  let nz :=
    if massOrb.position.z < -halfZ then (-halfZ, massOrb.velocity.z * (-(8 / 10)))
    else if halfZ < massOrb.position.z then (halfZ, massOrb.velocity.z * (-(8 / 10)))
    else (massOrb.position.z, massOrb.velocity.z)
  { massOrb with position := ⟨nx.1, ny.1, nz.1⟩, velocity := ⟨nx.2, ny.2, nz.2⟩ }

/-- `GameServer.checkMassPlayerCollisions`: scan the players in map order;
the ejecting owner is skipped while `Date.now() - creationTime < 1000`; the
first other colliding player absorbs the orb (grows by its mass) and the
scan stops.  Returns the mutated players, whether the orb was consumed, and
the emitted events. -/
def GameServer.checkMassPlayerCollisions (jm : JsMath) (now : ℚ) (massOrb : MassOrb) :
    List ServerPlayer → List ServerPlayer × Bool × List Event
  | [] => ([], false, [])
  | player :: rest =>
    if player.id = massOrb.ownerId ∧ now - massOrb.creationTime < 1000 then
      let next := GameServer.checkMassPlayerCollisions jm now massOrb rest
      (player :: next.1, next.2.1, next.2.2)
    else if PhysicsSystem.sphereCollision massOrb.position massOrb.radius
        player.position player.radius then
      (ServerPlayer.grow jm massOrb.mass player :: rest, true,
       [Event.massConsumed massOrb.id])
    else
      let next := GameServer.checkMassPlayerCollisions jm now massOrb rest
      (player :: next.1, next.2.1, next.2.2)

/-- Loop of `GameServer.updateMassOrbs`: expire orbs past their lifespan;
integrate, drag (`0.98`), bounce off the world and test the survivors
against the players.  `this.viruses` is never initialised anywhere in the
server, so `checkMassVirusCollisions` always returns immediately and is
omitted.  Consumed or expired orbs are dropped; later orbs see the players
as mutated by earlier absorptions, as in the source. -/
def GameServer.updateMassOrbsLoop (jm : JsMath) (deltaTime now : ℚ) :
    List MassOrb → List ServerPlayer → List MassOrb × List ServerPlayer × List Event
  | [], players => ([], players, [])
  | massOrb :: rest, players =>
    if massOrb.lifespan < now - massOrb.creationTime then
      GameServer.updateMassOrbsLoop jm deltaTime now rest players
    else
      let orb1 := { massOrb with
        position := massOrb.position.add (Vec3.smul deltaTime massOrb.velocity)
        velocity := Vec3.smul (98 / 100) massOrb.velocity }
      let orb2 := GameServer.constrainMassOrbToWorld orb1
      let hit := GameServer.checkMassPlayerCollisions jm now orb2 players
      let next := GameServer.updateMassOrbsLoop jm deltaTime now rest hit.1
      if hit.2.1 then (next.1, next.2.1, hit.2.2 ++ next.2.2)
      else (orb2 :: next.1, next.2.1, hit.2.2 ++ next.2.2)

/-- `GameServer.handlePlayerSplit`: unknown player or mass below 2 is a
silent no-op; otherwise split the player in place, construct the fragment
from the returned configuration (re-assigning its velocity from the
configuration, as the source does), insert it under its fresh id and
broadcast a `playerSplit` notice. -/
def GameServer.handlePlayerSplit (jm : JsMath) (ejectionDir : Vec3) (fragId : String)
    (players : List ServerPlayer) (playerId : String) :
    List ServerPlayer × List Event :=
  match mapGet players playerId with
  | none => (players, [])
  | some player =>
    if player.mass < 2 then (players, [])
    else
      let split := ServerPlayer.split jm ejectionDir fragId player
      let players1 := mapMutate players playerId (fun _ => split.1)
      match split.2 with
      | none => (players1, [])
      | some fragmentConfig =>
        let fragmentPlayer := ServerPlayer.make fragmentConfig
        let fragmentPlayer1 :=
          match fragmentConfig.velocity with
          | some v => { fragmentPlayer with velocity := v }
          | none => fragmentPlayer
        (mapSet players1 fragmentPlayer1, [Event.playerSplit playerId fragmentConfig.id])

/-- `GameServer.handlePlayerBoost`: invoke the (stub) boost on the player;
only a truthy return value would cause a broadcast. -/
def GameServer.handlePlayerBoost (players : List ServerPlayer) (playerId : String) :
    List ServerPlayer × List Event :=
  match mapGet players playerId with
  | none => (players, [])
  | some player =>
    let players1 := mapMutate players playerId (fun p => (ServerPlayer.boost p).1)
    match (ServerPlayer.boost player).2 with
    | some _ => (players1, [Event.playerBoosted playerId])
    | none => (players1, [])

/-- The optional client payload of an `ejectMass` request. -/
structure EjectMassData where
  mass : Option ℚ
  direction : Option Vec3
  position : Option Vec3
deriving DecidableEq

/-- `GameServer.handlePlayerEjectMass`: below mass 2 a silent no-op;
otherwise deduct `data.mass` (a client-supplied amount, defaulting to 1 when
absent or falsy), re-derive the size, and spawn a mass orb with 30 s
lifespan along the requested or facing direction.  `facingDir` stands for
the quaternion-derived facing direction, `orbId` for the uuid-based orb id
and `now` for `Date.now()`. -/
def GameServer.handlePlayerEjectMass (jm : JsMath) (now : ℚ) (facingDir : Vec3)
    (orbId : String) (players : List ServerPlayer) (massOrbs : List MassOrb)
    (playerId : String) (data : Option EjectMassData) :
    List ServerPlayer × List MassOrb × List Event :=
  match mapGet players playerId with
  | none => (players, massOrbs, [])
  | some player =>
    let minMassToEject : ℚ := 2
    let ejectedMassAmount : ℚ :=
      match data with
      | some d => jsOrQ d.mass 1
      | none => 1
    if player.mass < minMassToEject then (players, massOrbs, [])
    else
      let player1 :=
        ServerPlayer.updateSize jm { player with mass := player.mass - ejectedMassAmount }
      let direction :=
        match data with
        | some d =>
          match d.direction with
          | some dir => jsNormalize jm dir
          | none => facingDir
        | none => facingDir
      let spawnPosition :=
        match data with
        | some d =>
          match d.position with
          | some pos => pos
          | none => player1.position.add (Vec3.smul (player1.radius + 1 / 2) direction)
        | none => player1.position.add (Vec3.smul (player1.radius + 1 / 2) direction)
      let massOrb : MassOrb :=
        { id := orbId
          position := spawnPosition
          velocity := Vec3.smul 20 direction
          ownerId := player1.id
          mass := ejectedMassAmount
          radius := jm.cbrt ejectedMassAmount
          color := player1.color
          creationTime := now
          lifespan := 30000 }
      (mapMutate players playerId (fun _ => player1), massOrbs ++ [massOrb],
       [Event.massEjected orbId])

/-- Simulation state owned by the game server. -/
structure GameState where
  players : List ServerPlayer
  foods : List ServerFood
  massOrbs : List MassOrb
deriving DecidableEq

/-- Food-map deletions performed by `GameServer.update` for the consumption
records returned by the physics pass. -/
def GameServer.removeFoods (consumed : List ConsumedFood) (foods : List ServerFood) :
    List ServerFood :=
  consumed.foldl (fun fs c => List.eraseP (fun f => f.id == c.foodId) fs) foods

/-- `GameServer.update(deltaTime)`, one full tick in source order:
survival scoring; the physics pass (which already runs a player-collision
pass of its own and drops its result); food-map deletions with
`foodConsumed` notices; a second `checkPlayerCollisions` call whose
consumption removes the prey and emits `playerConsumed`; food respawn; mass
orb updates.  The broadcast and leaderboard steps mutate nothing. -/
def GameServer.update (jm : JsMath) (spawner : ℕ → ServerFood) (deltaTime now : ℚ)
    (st : GameState) : GameState × List Event :=
  let players1 := st.players.map (GameServer.survivalScore deltaTime)
  let physics := PhysicsSystem.update jm GameServer.worldSize deltaTime players1 st.foods
  let foods1 := GameServer.removeFoods physics.2 st.foods
  let foodEvents := physics.2.map (fun c => Event.foodConsumed c.foodId c.playerId)
  let collisions := PhysicsSystem.checkPlayerCollisions jm physics.1
  let afterConsume :=
    match collisions.2 with
    | some pair =>
      (mapDelete collisions.1 pair.2, [Event.playerConsumed pair.1 pair.2])
    | none => (collisions.1, ([] : List Event))
  let foods2 := GameServer.updateFood jm spawner deltaTime foods1
  let orbs := GameServer.updateMassOrbsLoop jm deltaTime now st.massOrbs afterConsume.1
  (⟨orbs.2.1, foods2, orbs.1⟩, foodEvents ++ afterConsume.2 ++ orbs.2.2)

/-! ### Concrete states used by witnesses and counterexamples -/

/-- A stationary non-fragment player with the given id, name, position,
mass and stored radius. -/
def mkPlayer (pid uname : String) (pos : Vec3) (m r : ℚ) : ServerPlayer :=
  { id := pid
    username := uname
    position := pos
    scale := ⟨r, r, r⟩
    color := "white"
    velocity := Vec3.zero
    mass := m
    radius := r
    maxSpeed := 10
    score := 0
    foodEaten := 0
    playersEaten := 0
    timeAlive := 0
    isFragment := false
    parentId := none
    splitForce := 0
    splitForceDecay := 0 }

/-- A fixed food item standing in for randomly generated spawns. -/
def someFood : ServerFood :=
  { id := "food0"
    position := Vec3.zero
    basePosition := Vec3.zero
    scale := ⟨1 / 2, 1 / 2, 1 / 2⟩
    color := "green"
    value := 3 / 20
    hoverPhase := 0
    hoverSpeed := 1 / 2
    hoverHeight := 1 / 10 }

/-! ### Map model lemmas -/

theorem mapMutate_eq_self (pid : String) (f : ServerPlayer → ServerPlayer)
    (hf : ∀ x, f x = x) (l : List ServerPlayer) : mapMutate l pid f = l := by
  induction l with
  | nil => rfl
  | cons p rest ih =>
    simp only [mapMutate]
    split
    · rw [hf]
    · rw [ih]

theorem mapMutate_length (pid : String) (f : ServerPlayer → ServerPlayer)
    (l : List ServerPlayer) : (mapMutate l pid f).length = l.length := by
  induction l with
  | nil => rfl
  | cons p rest ih =>
    simp only [mapMutate]
    split <;> simp [ih]

theorem mapGet_some_id {l : List ServerPlayer} {pid : String} {p : ServerPlayer}
    (h : mapGet l pid = some p) : p.id = pid := by
  have h1 := List.find?_some h
  simpa using h1

theorem mapMutate_const_map_id (pid : String) (q : ServerPlayer) (hq : q.id = pid)
    (l : List ServerPlayer) :
    (mapMutate l pid (fun _ => q)).map ServerPlayer.id = l.map ServerPlayer.id := by
  induction l with
  | nil => rfl
  | cons p rest ih =>
    simp only [mapMutate]
    split
    · rename_i hp
      simp [hq, hp]
    · simp [ih]

theorem mapSet_of_fresh (l : List ServerPlayer) (q : ServerPlayer)
    (h : ∀ p ∈ l, p.id ≠ q.id) : mapSet l q = l ++ [q] := by
  have hany : l.any (fun p => p.id == q.id) = false := by
    rw [List.any_eq_false]
    intro p hp
    simpa using h p hp
  simp [mapSet, hany]

theorem mapGet_mapMutate_const (pid : String) (q : ServerPlayer) (hq : q.id = pid)
    (l : List ServerPlayer) (hget : (mapGet l pid).isSome = true) :
    mapGet (mapMutate l pid (fun _ => q)) pid = some q := by
  induction l with
  | nil => simp [mapGet] at hget
  | cons p rest ih =>
    by_cases hp : p.id = pid
    · simp [mapGet, mapMutate, hp, hq]
    · have hrest : (mapGet rest pid).isSome = true := by
        simpa [mapGet, List.find?_cons_of_neg, hp] using hget
      simpa [mapGet, mapMutate, hp, List.find?_cons_of_neg] using ih hrest

/-! ### Claim theorems -/

/-- Helper for C4: the boost handler never changes the players collection
and never emits anything, because `ServerPlayer.boost` is a stub. -/
theorem boost_handler_no_op (players : List ServerPlayer) (playerId : String) :
    GameServer.handlePlayerBoost players playerId = (players, []) := by
  unfold GameServer.handlePlayerBoost
  cases h : mapGet players playerId with
  | none => rfl
  | some player =>
    simp only [ServerPlayer.boost]
    rw [mapMutate_eq_self _ _ (fun x => rfl)]

/-- C4 (counterexample): there is no positive fixed boost cost that a boost
request deducts from a sufficiently massive player with no boost or cooldown
active — the handler deducts nothing, ever. -/
theorem c4_counterexample :
    ¬ ∃ cost : ℚ, 0 < cost ∧
      ∀ (players : List ServerPlayer) (playerId : String) (player : ServerPlayer),
        mapGet players playerId = some player → cost < player.mass →
        ∃ q, mapGet (GameServer.handlePlayerBoost players playerId).1 playerId = some q
          ∧ q.mass = player.mass - cost := by
  rintro ⟨cost, hpos, hdeduct⟩
  obtain ⟨q, hq, hmass⟩ :=
    hdeduct [mkPlayer "P" "pat" Vec3.zero (cost + 1) 1] "P"
      (mkPlayer "P" "pat" Vec3.zero (cost + 1) 1) rfl (by simp [mkPlayer])
  rw [boost_handler_no_op] at hq
  obtain ⟨-, hqq⟩ : (mkPlayer "P" "pat" Vec3.zero (cost + 1) 1).id = "P"
      ∧ mkPlayer "P" "pat" Vec3.zero (cost + 1) 1 = q := by simpa [mapGet] using hq
  rw [← hqq] at hmass
  simp only [mkPlayer] at hmass
  linarith

/-- C4 (amended): `ServerPlayer.boost` is an unimplemented stub, so a boost
request — whatever the player's mass and state — deducts nothing, activates
nothing, and changes no state; in particular the claim's second half (no
state change on an ineligible request) holds. -/
theorem c4_boost_request_is_no_op (players : List ServerPlayer) (playerId : String) :
    GameServer.handlePlayerBoost players playerId = (players, [])
  ∧ ∀ p : ServerPlayer, ServerPlayer.boost p = (p, none) :=
  ⟨boost_handler_no_op players playerId, fun _ => rfl⟩

/-- C9: a split request by a player with mass below 2 returns no fragment,
adds no player, changes no state and emits nothing — both at the handler
level and at the `ServerPlayer.split` level. -/
theorem c9_split_below_threshold (jm : JsMath) (ejectionDir : Vec3) (fragId : String)
    (players : List ServerPlayer) (playerId : String) (player : ServerPlayer)
    (hget : mapGet players playerId = some player) (hlt : player.mass < 2) :
    GameServer.handlePlayerSplit jm ejectionDir fragId players playerId = (players, [])
  ∧ ServerPlayer.split jm ejectionDir fragId player = (player, none) := by
  constructor
  · unfold GameServer.handlePlayerSplit
    rw [hget]
    simp [hlt]
  · unfold ServerPlayer.split
    rw [if_pos hlt]

/-- C2 (counterexample): a fragment created by `split` is constructed with
its radius defaulted to `1` (the `fragmentConfig` carries no `radius` field,
and the constructor falls back to `config.radius || 1`), not the cube root
of its mass: splitting a mass-16 player yields a fragment of mass 8 whose
stored radius is 1, yet 1³ ≠ 8. -/
theorem c2_counterexample :
    ((ServerPlayer.split jm0 ⟨0, 0, -1⟩ "F" (mkPlayer "P" "pat" Vec3.zero 16 2)).2.map
        (fun config => ((ServerPlayer.make config).mass, (ServerPlayer.make config).radius)))
      = some (8, 1)
  ∧ ¬ ((1 : ℚ) ^ 3 = 8) := by
  constructor
  · norm_num [ServerPlayer.split, ServerPlayer.make, ServerPlayer.updateSize, mkPlayer,
      jsOrQ, jm0]
  · norm_num

/-- C2 (amended): every mass mutation that goes through `updateSize` — grow,
player consumption, the parent half of a split, a mass ejection — leaves the
stored radius equal to `Math.cbrt` of the current mass (for every
interpretation of `Math.cbrt`), and a freshly joined player starts with mass
1 and radius 1 = cbrt 1; but a split fragment is constructed with radius 1
regardless of its mass, so the invariant holds for it only after its first
`updateSize`. -/
theorem c2_radius_rederived (jm : JsMath) (player other : ServerPlayer) (amount : ℚ)
    (ejectionDir facingDir : Vec3) (fragId orbId pid uname col : String) (pos : Vec3)
    (players : List ServerPlayer) (orbs : List MassOrb) (playerId : String)
    (data : Option EjectMassData) (now : ℚ)
    (hget : mapGet players playerId = some player) (h2 : 2 ≤ player.mass) :
    ((ServerPlayer.updateSize jm player).radius = jm.cbrt (ServerPlayer.updateSize jm player).mass)
  ∧ ((ServerPlayer.grow jm amount player).radius
      = jm.cbrt (ServerPlayer.grow jm amount player).mass)
  ∧ ((ServerPlayer.consumePlayer jm player other).radius
      = jm.cbrt (ServerPlayer.consumePlayer jm player other).mass)
  ∧ ((ServerPlayer.split jm ejectionDir fragId player).1.radius
      = jm.cbrt (ServerPlayer.split jm ejectionDir fragId player).1.mass)
  ∧ (∃ q, mapGet (GameServer.handlePlayerEjectMass jm now facingDir orbId players orbs
        playerId data).1 playerId = some q ∧ q.radius = jm.cbrt q.mass)
  ∧ ((ServerPlayer.make { id := pid, username := uname, position := pos, color := col }).mass = 1
      ∧ (ServerPlayer.make { id := pid, username := uname, position := pos, color := col }).radius
          = 1) := by
  have hid : player.id = playerId := mapGet_some_id hget
  have hnl : ¬ player.mass < 2 := not_lt.mpr h2
  refine ⟨rfl, rfl, rfl, ?_, ?_, rfl, rfl⟩
  · simp only [ServerPlayer.split, ServerPlayer.updateSize, if_neg hnl]
  · refine ⟨ServerPlayer.updateSize jm
      { player with mass := player.mass -
          (match data with | some d => jsOrQ d.mass 1 | none => 1) }, ?_, rfl⟩
    simp only [GameServer.handlePlayerEjectMass, hget, if_neg hnl]
    exact mapGet_mapMutate_const playerId
      (ServerPlayer.updateSize jm
        { player with mass := player.mass -
            (match data with | some d => jsOrQ d.mass 1 | none => 1) })
      hid players (by rw [hget]; rfl)

/-- Witness for C2 at a concrete mass-8 player. -/
theorem c2_radius_rederived_witness :
    mapGet [mkPlayer "P" "pat" Vec3.zero 8 2] "P" = some (mkPlayer "P" "pat" Vec3.zero 8 2)
  ∧ 2 ≤ (mkPlayer "P" "pat" Vec3.zero 8 2).mass
  ∧ (((ServerPlayer.updateSize jm0 (mkPlayer "P" "pat" Vec3.zero 8 2)).radius
        = jm0.cbrt (ServerPlayer.updateSize jm0 (mkPlayer "P" "pat" Vec3.zero 8 2)).mass)
    ∧ ((ServerPlayer.grow jm0 1 (mkPlayer "P" "pat" Vec3.zero 8 2)).radius
        = jm0.cbrt (ServerPlayer.grow jm0 1 (mkPlayer "P" "pat" Vec3.zero 8 2)).mass)
    ∧ ((ServerPlayer.consumePlayer jm0 (mkPlayer "P" "pat" Vec3.zero 8 2)
          (mkPlayer "Q" "quinn" Vec3.zero 1 1)).radius
        = jm0.cbrt (ServerPlayer.consumePlayer jm0 (mkPlayer "P" "pat" Vec3.zero 8 2)
          (mkPlayer "Q" "quinn" Vec3.zero 1 1)).mass)
    ∧ ((ServerPlayer.split jm0 ⟨0, 0, -1⟩ "F" (mkPlayer "P" "pat" Vec3.zero 8 2)).1.radius
        = jm0.cbrt (ServerPlayer.split jm0 ⟨0, 0, -1⟩ "F"
            (mkPlayer "P" "pat" Vec3.zero 8 2)).1.mass)
    ∧ (∃ q, mapGet (GameServer.handlePlayerEjectMass jm0 0 ⟨0, 0, -1⟩ "orb1"
          [mkPlayer "P" "pat" Vec3.zero 8 2] [] "P" none).1 "P" = some q
        ∧ q.radius = jm0.cbrt q.mass)
    ∧ ((ServerPlayer.make
            { id := "J", username := "jo", position := Vec3.zero, color := "red" }).mass = 1
      ∧ (ServerPlayer.make
            { id := "J", username := "jo", position := Vec3.zero, color := "red" }).radius
          = 1)) :=
  ⟨rfl, by norm_num [mkPlayer],
   c2_radius_rederived jm0 (mkPlayer "P" "pat" Vec3.zero 8 2)
     (mkPlayer "Q" "quinn" Vec3.zero 1 1) 1 ⟨0, 0, -1⟩ ⟨0, 0, -1⟩ "F" "orb1" "J" "jo" "red"
     Vec3.zero [mkPlayer "P" "pat" Vec3.zero 8 2] [] "P" none 0 rfl (by norm_num [mkPlayer])⟩

/-- C5 (code bug): `handlePlayerEjectMass` deducts the client-supplied
`data.mass` with no upper bound; a mass-5 player requesting an ejection of
10 ends with mass −5, violating the positive-mass invariant. -/
theorem c5_eject_trusts_client_amount :
    ((GameServer.handlePlayerEjectMass jm0 0 ⟨0, 0, -1⟩ "orb1"
        [mkPlayer "P" "pat" Vec3.zero 5 1] [] "P"
        (some ⟨some 10, none, none⟩)).1.map ServerPlayer.mass) = [-5]
  ∧ ¬ (0 < (-5 : ℚ)) := by
  constructor
  · norm_num [GameServer.handlePlayerEjectMass, mapGet, mapMutate, mkPlayer, jsOrQ,
      ServerPlayer.updateSize, jm0]
  · norm_num

/-- C3: a split at mass ≥ 2 halves the parent in place, appends exactly one
fragment inheriting the parent's name and color and carrying the other half
of the mass (the two halves summing to the original mass), and emits one
`playerSplit` notice. -/
theorem c3_split_halves (jm : JsMath) (ejectionDir : Vec3) (fragId : String)
    (players : List ServerPlayer) (playerId : String) (player : ServerPlayer)
    (hget : mapGet players playerId = some player) (h2 : 2 ≤ player.mass)
    (hfresh : ∀ p ∈ players, p.id ≠ fragId) :
    ∃ fragment,
      (GameServer.handlePlayerSplit jm ejectionDir fragId players playerId).1
        = mapMutate players playerId
            (fun _ => ServerPlayer.updateSize jm { player with mass := player.mass / 2 })
          ++ [fragment]
    ∧ (GameServer.handlePlayerSplit jm ejectionDir fragId players playerId).2
        = [Event.playerSplit playerId fragId]
    ∧ fragment.mass = player.mass / 2
    ∧ fragment.username = player.username
    ∧ fragment.color = player.color
    ∧ fragment.id = fragId
    ∧ (ServerPlayer.updateSize jm { player with mass := player.mass / 2 }).mass
        + fragment.mass = player.mass
    ∧ (GameServer.handlePlayerSplit jm ejectionDir fragId players playerId).1.length
        = players.length + 1 := by
  have hid : player.id = playerId := mapGet_some_id hget
  have hnl : ¬ player.mass < 2 := not_lt.mpr h2
  have hmz : player.mass / 2 ≠ 0 := ne_of_gt (by linarith)
  set p1 := ServerPlayer.updateSize jm { player with mass := player.mass / 2 } with hp1
  have hfresh1 : ∀ p ∈ mapMutate players playerId (fun _ => p1), p.id ≠ fragId := by
    intro p hp
    have hpid : p.id ∈ (mapMutate players playerId (fun _ => p1)).map ServerPlayer.id :=
      List.mem_map_of_mem _ hp
    rw [mapMutate_const_map_id playerId p1 hid players] at hpid
    obtain ⟨p0, hp0, hpeq⟩ := List.mem_map.mp hpid
    rw [← hpeq]
    exact hfresh p0 hp0
  have hhandler : GameServer.handlePlayerSplit jm ejectionDir fragId players playerId
      = (mapMutate players playerId (fun _ => p1)
          ++ [{ ServerPlayer.make
                { id := fragId
                  username := p1.username
                  position := p1.position.add (Vec3.smul (p1.radius + 1 / 2) ejectionDir)
                  color := p1.color
                  velocity := some (Vec3.smul 20 ejectionDir)
                  mass := some (player.mass / 2)
                  isFragment := true
                  parent := some p1.id } with velocity := Vec3.smul 20 ejectionDir }],
         [Event.playerSplit playerId fragId]) := by
    simp only [GameServer.handlePlayerSplit, hget, ServerPlayer.split, if_neg hnl]
    rw [mapSet_of_fresh _ _ hfresh1]
  rw [hhandler]
  refine ⟨_, rfl, rfl, ?_, rfl, rfl, rfl, ?_, ?_⟩
  · simp only [ServerPlayer.make, jsOrQ, if_neg hmz]
  · simp only [hp1, ServerPlayer.make, jsOrQ, if_neg hmz, ServerPlayer.updateSize,
      add_halves]
  · simp [mapMutate_length]

/-- Witness for C3: splitting a concrete mass-8 player. -/
theorem c3_split_halves_witness :
    mapGet [mkPlayer "P" "pat" Vec3.zero 8 2] "P" = some (mkPlayer "P" "pat" Vec3.zero 8 2)
  ∧ 2 ≤ (mkPlayer "P" "pat" Vec3.zero 8 2).mass
  ∧ (∀ p ∈ [mkPlayer "P" "pat" Vec3.zero 8 2], p.id ≠ "F")
  ∧ (∃ fragment,
      (GameServer.handlePlayerSplit jm0 ⟨0, 0, -1⟩ "F"
          [mkPlayer "P" "pat" Vec3.zero 8 2] "P").1
        = mapMutate [mkPlayer "P" "pat" Vec3.zero 8 2] "P"
            (fun _ => ServerPlayer.updateSize jm0
              { mkPlayer "P" "pat" Vec3.zero 8 2 with
                  mass := (mkPlayer "P" "pat" Vec3.zero 8 2).mass / 2 })
          ++ [fragment]
    ∧ (GameServer.handlePlayerSplit jm0 ⟨0, 0, -1⟩ "F"
          [mkPlayer "P" "pat" Vec3.zero 8 2] "P").2
        = [Event.playerSplit "P" "F"]
    ∧ fragment.mass = (mkPlayer "P" "pat" Vec3.zero 8 2).mass / 2
    ∧ fragment.username = (mkPlayer "P" "pat" Vec3.zero 8 2).username
    ∧ fragment.color = (mkPlayer "P" "pat" Vec3.zero 8 2).color
    ∧ fragment.id = "F"
    ∧ (ServerPlayer.updateSize jm0
          { mkPlayer "P" "pat" Vec3.zero 8 2 with
              mass := (mkPlayer "P" "pat" Vec3.zero 8 2).mass / 2 }).mass
        + fragment.mass = (mkPlayer "P" "pat" Vec3.zero 8 2).mass
    ∧ (GameServer.handlePlayerSplit jm0 ⟨0, 0, -1⟩ "F"
          [mkPlayer "P" "pat" Vec3.zero 8 2] "P").1.length
        = [mkPlayer "P" "pat" Vec3.zero 8 2].length + 1) :=
  ⟨rfl, by norm_num [mkPlayer], by decide,
   c3_split_halves jm0 ⟨0, 0, -1⟩ "F" [mkPlayer "P" "pat" Vec3.zero 8 2] "P"
     (mkPlayer "P" "pat" Vec3.zero 8 2) rfl (by norm_num [mkPlayer]) (by decide)⟩

/-- C1 (code bug): one tick on two overlapping players with masses 8 and 1
(ratio above 1.2) removes the prey and emits exactly one `playerConsumed`
event naming the right pair, but leaves the predator at mass
8 + 2·(0.8·1) = 48/5, not the claimed 8 + 0.8·1 = 44/5: the tick runs
`checkPlayerCollisions` twice — once inside `PhysicsSystem.update` with its
returned event discarded, and again from `GameServer.update` — so
`consumePlayer` grants the 0.8 fraction twice before the prey is removed. -/
theorem c1_consumption_grants_mass_twice :
    ((GameServer.update jm0 (fun _ => someFood) (1 / 60) 0
        ⟨[mkPlayer "A" "alice" Vec3.zero 8 2, mkPlayer "B" "bob" Vec3.zero 1 1],
          [], []⟩).1.players.map (fun p => (p.id, p.mass)) = [("A", 48 / 5)])
  ∧ ((GameServer.update jm0 (fun _ => someFood) (1 / 60) 0
        ⟨[mkPlayer "A" "alice" Vec3.zero 8 2, mkPlayer "B" "bob" Vec3.zero 1 1],
          [], []⟩).2.filter Event.isPlayerConsumed = [Event.playerConsumed "A" "B"])
  ∧ ¬ ((48 : ℚ) / 5 = 8 + (8 / 10) * 1) := by
  refine ⟨?_, ?_, by norm_num⟩ <;>
  · norm_num +decide [GameServer.update, GameServer.survivalScore, PhysicsSystem.update,
      PhysicsSystem.updateLoop, ServerPlayer.update, PhysicsSystem.constrainToWorld,
      PhysicsSystem.checkFoodCollisions, PhysicsSystem.checkPlayerCollisions,
      PhysicsSystem.checkPlayerCollisionsAux, PhysicsSystem.innerPairScan,
      PhysicsSystem.sphereCollision, ServerPlayer.consumePlayer, ServerPlayer.grow,
      ServerPlayer.updateSize, GameServer.removeFoods, mapDelete, GameServer.updateFood,
      GameServer.spawnLoop, GameServer.spawnFood, GameServer.updateMassOrbsLoop,
      GameServer.worldSize, GameServer.minFood, GameServer.maxFood,
      GameServer.foodSpawnRate, mkPlayer, someFood, jm0, Vec3.zero, Vec3.add, Vec3.smul,
      Event.isPlayerConsumed, List.eraseP, beq_iff_eq, cond_eq_if]

/-- Scalar clamp facts behind `constrainToWorld`: the clamped coordinate
stays within the half-extent, and an out-of-range coordinate lands exactly
on a boundary. -/
theorem clampAxis_spec (h x : ℚ) (hh : 0 ≤ h) :
    |max (-h) (min h x)| ≤ h
  ∧ ((x < -h ∨ h < x) → (max (-h) (min h x) = -h ∨ max (-h) (min h x) = h)) := by
  constructor
  · rw [abs_le]
    exact ⟨le_max_left _ _, max_le (by linarith) (min_le_left _ _)⟩
  · rintro (hlt | hgt)
    · left
      rw [min_eq_right (by linarith : x ≤ h)]
      exact max_eq_left (by linarith)
    · right
      rw [min_eq_left (by linarith : h ≤ x)]
      exact max_eq_right (by linarith)

/-- C6: after `constrainToWorld` the position on each axis is within the
half-extent; on any axis whose incoming position exceeded the boundary the
outgoing velocity component is zero; and every velocity component is either
kept or zeroed, never negated (players do not bounce). -/
theorem c6_boundary_clamp (worldSize : Vec3) (p : ServerPlayer)
    (hx : 0 ≤ worldSize.x) (hy : 0 ≤ worldSize.y) (hz : 0 ≤ worldSize.z) :
    (|(PhysicsSystem.constrainToWorld worldSize p).position.x| ≤ worldSize.x / 2
      ∧ |(PhysicsSystem.constrainToWorld worldSize p).position.y| ≤ worldSize.y / 2
      ∧ |(PhysicsSystem.constrainToWorld worldSize p).position.z| ≤ worldSize.z / 2)
  ∧ ((p.position.x < -(worldSize.x / 2) ∨ worldSize.x / 2 < p.position.x) →
      (PhysicsSystem.constrainToWorld worldSize p).velocity.x = 0)
  ∧ ((p.position.y < -(worldSize.y / 2) ∨ worldSize.y / 2 < p.position.y) →
      (PhysicsSystem.constrainToWorld worldSize p).velocity.y = 0)
  ∧ ((p.position.z < -(worldSize.z / 2) ∨ worldSize.z / 2 < p.position.z) →
      (PhysicsSystem.constrainToWorld worldSize p).velocity.z = 0)
  ∧ (((PhysicsSystem.constrainToWorld worldSize p).velocity.x = p.velocity.x
        ∨ (PhysicsSystem.constrainToWorld worldSize p).velocity.x = 0)
      ∧ ((PhysicsSystem.constrainToWorld worldSize p).velocity.y = p.velocity.y
        ∨ (PhysicsSystem.constrainToWorld worldSize p).velocity.y = 0)
      ∧ ((PhysicsSystem.constrainToWorld worldSize p).velocity.z = p.velocity.z
        ∨ (PhysicsSystem.constrainToWorld worldSize p).velocity.z = 0)) := by
  have hx2 : 0 ≤ worldSize.x / 2 := by linarith
  have hy2 : 0 ≤ worldSize.y / 2 := by linarith
  have hz2 : 0 ≤ worldSize.z / 2 := by linarith
  simp only [PhysicsSystem.constrainToWorld]
  refine ⟨⟨(clampAxis_spec _ _ hx2).1, (clampAxis_spec _ _ hy2).1,
      (clampAxis_spec _ _ hz2).1⟩, ?_, ?_, ?_, ?_, ?_, ?_⟩
  · intro hout
    exact if_pos ((clampAxis_spec _ p.position.x hx2).2 hout)
  · intro hout
    exact if_pos ((clampAxis_spec _ p.position.y hy2).2 hout)
  · intro hout
    exact if_pos ((clampAxis_spec _ p.position.z hz2).2 hout)
  · split
    · right; rfl
    · left; rfl
  · split
    · right; rfl
    · left; rfl
  · split
    · right; rfl
    · left; rfl

/-- Witness for C6: a player outside the world on every axis, with the
source world size 500³. -/
theorem c6_boundary_clamp_witness :
    (0 ≤ GameServer.worldSize.x ∧ 0 ≤ GameServer.worldSize.y ∧ 0 ≤ GameServer.worldSize.z)
  ∧ ((|(PhysicsSystem.constrainToWorld GameServer.worldSize
          (mkPlayer "W" "walker" ⟨300, -260, 10⟩ 1 1)).position.x|
        ≤ GameServer.worldSize.x / 2
      ∧ |(PhysicsSystem.constrainToWorld GameServer.worldSize
          (mkPlayer "W" "walker" ⟨300, -260, 10⟩ 1 1)).position.y|
        ≤ GameServer.worldSize.y / 2
      ∧ |(PhysicsSystem.constrainToWorld GameServer.worldSize
          (mkPlayer "W" "walker" ⟨300, -260, 10⟩ 1 1)).position.z|
        ≤ GameServer.worldSize.z / 2)
    ∧ (((mkPlayer "W" "walker" ⟨300, -260, 10⟩ 1 1).position.x < -(GameServer.worldSize.x / 2)
          ∨ GameServer.worldSize.x / 2 < (mkPlayer "W" "walker" ⟨300, -260, 10⟩ 1 1).position.x) →
        (PhysicsSystem.constrainToWorld GameServer.worldSize
          (mkPlayer "W" "walker" ⟨300, -260, 10⟩ 1 1)).velocity.x = 0)
    ∧ (((mkPlayer "W" "walker" ⟨300, -260, 10⟩ 1 1).position.y < -(GameServer.worldSize.y / 2)
          ∨ GameServer.worldSize.y / 2 < (mkPlayer "W" "walker" ⟨300, -260, 10⟩ 1 1).position.y) →
        (PhysicsSystem.constrainToWorld GameServer.worldSize
          (mkPlayer "W" "walker" ⟨300, -260, 10⟩ 1 1)).velocity.y = 0)
    ∧ (((mkPlayer "W" "walker" ⟨300, -260, 10⟩ 1 1).position.z < -(GameServer.worldSize.z / 2)
          ∨ GameServer.worldSize.z / 2 < (mkPlayer "W" "walker" ⟨300, -260, 10⟩ 1 1).position.z) →
        (PhysicsSystem.constrainToWorld GameServer.worldSize
          (mkPlayer "W" "walker" ⟨300, -260, 10⟩ 1 1)).velocity.z = 0)
    ∧ (((PhysicsSystem.constrainToWorld GameServer.worldSize
            (mkPlayer "W" "walker" ⟨300, -260, 10⟩ 1 1)).velocity.x
            = (mkPlayer "W" "walker" ⟨300, -260, 10⟩ 1 1).velocity.x
          ∨ (PhysicsSystem.constrainToWorld GameServer.worldSize
            (mkPlayer "W" "walker" ⟨300, -260, 10⟩ 1 1)).velocity.x = 0)
        ∧ ((PhysicsSystem.constrainToWorld GameServer.worldSize
            (mkPlayer "W" "walker" ⟨300, -260, 10⟩ 1 1)).velocity.y
            = (mkPlayer "W" "walker" ⟨300, -260, 10⟩ 1 1).velocity.y
          ∨ (PhysicsSystem.constrainToWorld GameServer.worldSize
            (mkPlayer "W" "walker" ⟨300, -260, 10⟩ 1 1)).velocity.y = 0)
        ∧ ((PhysicsSystem.constrainToWorld GameServer.worldSize
            (mkPlayer "W" "walker" ⟨300, -260, 10⟩ 1 1)).velocity.z
            = (mkPlayer "W" "walker" ⟨300, -260, 10⟩ 1 1).velocity.z
          ∨ (PhysicsSystem.constrainToWorld GameServer.worldSize
            (mkPlayer "W" "walker" ⟨300, -260, 10⟩ 1 1)).velocity.z = 0))) :=
  ⟨⟨by norm_num [GameServer.worldSize], by norm_num [GameServer.worldSize],
      by norm_num [GameServer.worldSize]⟩,
   c6_boundary_clamp GameServer.worldSize (mkPlayer "W" "walker" ⟨300, -260, 10⟩ 1 1)
     (by norm_num [GameServer.worldSize]) (by norm_num [GameServer.worldSize])
     (by norm_num [GameServer.worldSize])⟩

/-- Length of the spawn loop: each `spawnFood` adds one item until the cap,
so a loop of `k` spawns lands at `min (start + k) maxFood`. -/
theorem spawnLoop_length (spawner : ℕ → ServerFood) (k : ℕ) :
    ∀ (idx : ℕ) (foods : List ServerFood), foods.length ≤ GameServer.maxFood →
      (GameServer.spawnLoop spawner idx k foods).length
        = min (foods.length + k) GameServer.maxFood := by
  induction k with
  | zero =>
    intro idx foods h
    simp only [GameServer.spawnLoop, Nat.add_zero]
    omega
  | succ k ih =>
    intro idx foods h
    simp only [GameServer.spawnLoop, GameServer.spawnFood]
    by_cases hfull : GameServer.maxFood ≤ foods.length
    · rw [if_pos hfull, ih _ _ h]
      omega
    · rw [if_neg hfull, ih _ _ (by simp; omega)]
      simp only [List.length_append, List.length_cons, List.length_nil]
      omega

/-- The spawn loop adds at most `k` items. -/
theorem spawnLoop_length_le (spawner : ℕ → ServerFood) (k : ℕ) :
    ∀ (idx : ℕ) (foods : List ServerFood),
      (GameServer.spawnLoop spawner idx k foods).length ≤ foods.length + k := by
  induction k with
  | zero => intro idx foods; simp [GameServer.spawnLoop]
  | succ k ih =>
    intro idx foods
    simp only [GameServer.spawnLoop, GameServer.spawnFood]
    split
    · exact le_trans (ih _ _) (by omega)
    · exact le_trans (ih _ _) (by simp; omega)

/-- `updateFood` never pushes the food count above `maxFood`. -/
theorem updateFood_le_maxFood (jm : JsMath) (spawner : ℕ → ServerFood) (dt : ℚ)
    (foods : List ServerFood) (h : foods.length ≤ GameServer.maxFood) :
    (GameServer.updateFood jm spawner dt foods).length ≤ GameServer.maxFood := by
  unfold GameServer.updateFood
  simp only []
  split
  · rw [spawnLoop_length _ _ _ _ (by simpa using h)]
    omega
  · simpa using h

/-- Below `minFood` and with a positive tick interval, `updateFood` strictly
increases the food count. -/
theorem updateFood_at_least_one (jm : JsMath) (spawner : ℕ → ServerFood) (dt : ℚ)
    (foods : List ServerFood) (hdt : 0 < dt)
    (hlow : foods.length < GameServer.minFood) :
    foods.length < (GameServer.updateFood jm spawner dt foods).length := by
  have hceil : 0 < ⌈GameServer.foodSpawnRate * dt⌉ := by
    rw [Int.ceil_pos]
    have h20 : (0 : ℚ) < GameServer.foodSpawnRate := by norm_num [GameServer.foodSpawnRate]
    exact mul_pos h20 hdt
  have hmax : foods.length ≤ GameServer.maxFood := by
    simp only [GameServer.minFood] at hlow
    simp only [GameServer.maxFood]
    omega
  unfold GameServer.updateFood
  rw [if_pos (by simpa using hlow)]
  rw [spawnLoop_length _ _ _ _ (by simpa using hmax)]
  simp only [List.length_map]
  simp only [GameServer.minFood] at hlow
  simp only [GameServer.maxFood]
  omega

/-- At or above `minFood`, `updateFood` only animates: the count is kept. -/
theorem updateFood_stable (jm : JsMath) (spawner : ℕ → ServerFood) (dt : ℚ)
    (foods : List ServerFood) (hhigh : GameServer.minFood ≤ foods.length) :
    (GameServer.updateFood jm spawner dt foods).length = foods.length := by
  unfold GameServer.updateFood
  rw [if_neg (by simp; omega)]
  simp

/-- Per-tick spawn budget: at most `ceil(foodSpawnRate * dt)` new items. -/
theorem updateFood_rate (jm : JsMath) (spawner : ℕ → ServerFood) (dt : ℚ)
    (foods : List ServerFood) :
    (GameServer.updateFood jm spawner dt foods).length
      ≤ foods.length + (⌈GameServer.foodSpawnRate * dt⌉).toNat := by
  unfold GameServer.updateFood
  simp only []
  split
  · refine le_trans (spawnLoop_length_le _ _ _ _) ?_
    simp only [List.length_map]
    have : (min ⌈GameServer.foodSpawnRate * dt⌉
        ((GameServer.maxFood : ℤ) - (foods.length : ℤ))).toNat
        ≤ (⌈GameServer.foodSpawnRate * dt⌉).toNat := by
      exact Int.toNat_le_toNat (min_le_left _ _)
    omega
  · simp

/-- Iterated food maintenance: starting at or below `maxFood`, every number
of ticks keeps the count at or below `maxFood`, and the count grows at least
one per tick until it reaches `minFood`. -/
theorem foodTicks_bounds (jm : JsMath) (spawnerSeq : ℕ → ℕ → ServerFood) (dt : ℚ)
    (hdt : 0 < dt) : ∀ (k : ℕ) (foods : List ServerFood),
    foods.length ≤ GameServer.maxFood →
    (GameServer.foodTicks jm spawnerSeq dt k foods).length ≤ GameServer.maxFood
      ∧ min GameServer.minFood (foods.length + k)
          ≤ (GameServer.foodTicks jm spawnerSeq dt k foods).length := by
  intro k
  induction k with
  | zero =>
    intro foods h
    refine ⟨by simpa [GameServer.foodTicks] using h, ?_⟩
    simp only [GameServer.foodTicks]
    omega
  | succ k ih =>
    intro foods h
    simp only [GameServer.foodTicks]
    have h1 := updateFood_le_maxFood jm (spawnerSeq k) dt foods h
    obtain ⟨iha, ihb⟩ := ih (GameServer.updateFood jm (spawnerSeq k) dt foods) h1
    refine ⟨iha, ?_⟩
    by_cases hlow : foods.length < GameServer.minFood
    · have h2 := updateFood_at_least_one jm (spawnerSeq k) dt foods hdt hlow
      refine le_trans ?_ ihb
      omega
    · have h2 := updateFood_stable jm (spawnerSeq k) dt foods (not_lt.mp hlow)
      refine le_trans ?_ ihb
      rw [h2]
      omega

/-- C7: the food count never exceeds `maxFood` after any number of
maintenance ticks; once at least `minFood` ticks have run the count sits in
`[minFood, maxFood]`; a tick that starts below `minFood` strictly increases
the count while one at or above `minFood` spawns nothing; and each tick adds
at most `ceil(foodSpawnRate * dt)` items. -/
theorem c7_food_population_bounds (jm : JsMath) (spawnerSeq : ℕ → ℕ → ServerFood)
    (dt : ℚ) (foods : List ServerFood) (k : ℕ)
    (hdt : 0 < dt) (hstart : foods.length ≤ GameServer.maxFood) :
    ((GameServer.foodTicks jm spawnerSeq dt k foods).length ≤ GameServer.maxFood)
  ∧ (GameServer.minFood ≤ k →
      GameServer.minFood ≤ (GameServer.foodTicks jm spawnerSeq dt k foods).length)
  ∧ (foods.length < GameServer.minFood →
      foods.length < (GameServer.updateFood jm (spawnerSeq 0) dt foods).length)
  ∧ (GameServer.minFood ≤ foods.length →
      (GameServer.updateFood jm (spawnerSeq 0) dt foods).length = foods.length)
  ∧ ((GameServer.updateFood jm (spawnerSeq 0) dt foods).length
      ≤ foods.length + (⌈GameServer.foodSpawnRate * dt⌉).toNat) := by
  obtain ⟨ha, hb⟩ := foodTicks_bounds jm spawnerSeq dt hdt k foods hstart
  exact ⟨ha, fun hk => le_trans (by omega) hb,
    fun hlow => updateFood_at_least_one jm (spawnerSeq 0) dt foods hdt hlow,
    fun hhigh => updateFood_stable jm (spawnerSeq 0) dt foods hhigh,
    updateFood_rate jm (spawnerSeq 0) dt foods⟩

/-- Witness for C7: an empty food map, one-second ticks, `minFood` ticks. -/
theorem c7_food_population_bounds_witness :
    ((0 : ℚ) < 1 ∧ ([] : List ServerFood).length ≤ GameServer.maxFood)
  ∧ (((GameServer.foodTicks jm0 (fun _ _ => someFood) 1 GameServer.minFood []).length
        ≤ GameServer.maxFood)
    ∧ (GameServer.minFood ≤ GameServer.minFood →
        GameServer.minFood
          ≤ (GameServer.foodTicks jm0 (fun _ _ => someFood) 1 GameServer.minFood []).length)
    ∧ (([] : List ServerFood).length < GameServer.minFood →
        ([] : List ServerFood).length
          < (GameServer.updateFood jm0 ((fun _ _ => someFood) 0) 1 []).length)
    ∧ (GameServer.minFood ≤ ([] : List ServerFood).length →
        (GameServer.updateFood jm0 ((fun _ _ => someFood) 0) 1 []).length
          = ([] : List ServerFood).length)
    ∧ ((GameServer.updateFood jm0 ((fun _ _ => someFood) 0) 1 []).length
        ≤ ([] : List ServerFood).length + (⌈GameServer.foodSpawnRate * 1⌉).toNat)) :=
  ⟨⟨by norm_num, by norm_num⟩,
   c7_food_population_bounds jm0 (fun _ _ => someFood) 1 [] GameServer.minFood
     (by norm_num) (by norm_num)⟩

theorem ServerPlayer.grow_id (jm : JsMath) (amount : ℚ) (p : ServerPlayer) :
    (ServerPlayer.grow jm amount p).id = p.id := rfl

/-- Within the immunity window, the mass-orb collision scan passes every
entry carrying the owner's id through unchanged: whoever absorbs the orb,
it is not its owner. -/
theorem checkMass_owner_unchanged (jm : JsMath) (now : ℚ) (orb : MassOrb)
    (hw : now - orb.creationTime < 1000) (players : List ServerPlayer) :
    (GameServer.checkMassPlayerCollisions jm now orb players).1.filter
        (fun p => p.id == orb.ownerId)
      = players.filter (fun p => p.id == orb.ownerId) := by
  induction players with
  | nil => rfl
  | cons p rest ih =>
    simp only [GameServer.checkMassPlayerCollisions]
    by_cases hid : p.id = orb.ownerId
    · rw [if_pos ⟨hid, hw⟩]
      simp only [List.filter_cons, hid, beq_self_eq_true, if_true, ih]
    · rw [if_neg (by tauto)]
      split
      · simp only [List.filter_cons, ServerPlayer.grow_id]
        rw [if_neg (by simpa using hid), if_neg (by simpa using hid)]
      · simp only [List.filter_cons]
        rw [if_neg (by simpa using hid), if_neg (by simpa using hid)]
        exact ih

/-- Within the immunity window, if no non-owner player overlaps the orb,
the scan is a complete no-op: no growth, no removal, no event — even when
the owner overlaps the orb. -/
theorem checkMass_window_no_op (jm : JsMath) (now : ℚ) (orb : MassOrb)
    (hw : now - orb.creationTime < 1000) (players : List ServerPlayer)
    (hno : ∀ p ∈ players, p.id ≠ orb.ownerId →
      PhysicsSystem.sphereCollision orb.position orb.radius p.position p.radius = false) :
    GameServer.checkMassPlayerCollisions jm now orb players = (players, false, []) := by
  induction players with
  | nil => rfl
  | cons p rest ih =>
    simp only [GameServer.checkMassPlayerCollisions]
    by_cases hid : p.id = orb.ownerId
    · rw [if_pos ⟨hid, hw⟩, ih (fun q hq => hno q (List.mem_cons_of_mem _ hq))]
    · rw [if_neg (by tauto)]
      rw [hno p (List.mem_cons_self p rest) hid]
      simp only [Bool.false_eq_true, if_false]
      rw [ih (fun q hq => hno q (List.mem_cons_of_mem _ hq))]

/-- C8: while the 1000 ms immunity window is open the ejecting owner never
absorbs its own orb (its entries pass through the scan unchanged, and with
no other colliding player the orb survives untouched); once the window has
elapsed, an overlap with the owner absorbs the orb — the owner grows by the
orb's mass, the orb is removed and a `massConsumed` notice is emitted. -/
theorem c8_self_immunity_window (jm : JsMath) (now : ℚ) (orb : MassOrb)
    (players rest : List ServerPlayer) (owner : ServerPlayer)
    (hown : owner.id = orb.ownerId) :
    ((now - orb.creationTime < 1000) →
        (GameServer.checkMassPlayerCollisions jm now orb players).1.filter
            (fun p => p.id == orb.ownerId)
          = players.filter (fun p => p.id == orb.ownerId))
  ∧ ((now - orb.creationTime < 1000) →
      (∀ p ∈ players, p.id ≠ orb.ownerId →
          PhysicsSystem.sphereCollision orb.position orb.radius p.position p.radius
            = false) →
        GameServer.checkMassPlayerCollisions jm now orb players = (players, false, []))
  ∧ ((1000 ≤ now - orb.creationTime) →
      PhysicsSystem.sphereCollision orb.position orb.radius owner.position owner.radius
          = true →
        GameServer.checkMassPlayerCollisions jm now orb (owner :: rest)
          = (ServerPlayer.grow jm orb.mass owner :: rest, true,
             [Event.massConsumed orb.id])) := by
  refine ⟨fun hw => checkMass_owner_unchanged jm now orb hw players,
    fun hw hno => checkMass_window_no_op jm now orb hw players hno,
    fun h1000 hcol => ?_⟩
  simp only [GameServer.checkMassPlayerCollisions]
  rw [if_neg (fun hconj => absurd hconj.2 (not_lt.mpr h1000)), if_pos hcol]

/-- Witness for C8: a concrete orb whose owner heads the player list. -/
theorem c8_self_immunity_window_witness :
    (mkPlayer "P" "pat" Vec3.zero 8 2).id
        = (MassOrb.mk "orb1" Vec3.zero Vec3.zero "P" 1 1 "white" 0 30000).ownerId
  ∧ (((0 : ℚ) - (MassOrb.mk "orb1" Vec3.zero Vec3.zero "P" 1 1 "white" 0 30000).creationTime
        < 1000 →
      (GameServer.checkMassPlayerCollisions jm0 0
          (MassOrb.mk "orb1" Vec3.zero Vec3.zero "P" 1 1 "white" 0 30000)
          [mkPlayer "P" "pat" Vec3.zero 8 2]).1.filter
          (fun p => p.id
            == (MassOrb.mk "orb1" Vec3.zero Vec3.zero "P" 1 1 "white" 0 30000).ownerId)
        = [mkPlayer "P" "pat" Vec3.zero 8 2].filter
          (fun p => p.id
            == (MassOrb.mk "orb1" Vec3.zero Vec3.zero "P" 1 1 "white" 0 30000).ownerId))
    ∧ ((0 : ℚ) - (MassOrb.mk "orb1" Vec3.zero Vec3.zero "P" 1 1 "white" 0 30000).creationTime
          < 1000 →
        (∀ p ∈ [mkPlayer "P" "pat" Vec3.zero 8 2],
          p.id ≠ (MassOrb.mk "orb1" Vec3.zero Vec3.zero "P" 1 1 "white" 0 30000).ownerId →
          PhysicsSystem.sphereCollision
              (MassOrb.mk "orb1" Vec3.zero Vec3.zero "P" 1 1 "white" 0 30000).position
              (MassOrb.mk "orb1" Vec3.zero Vec3.zero "P" 1 1 "white" 0 30000).radius
              p.position p.radius = false) →
          GameServer.checkMassPlayerCollisions jm0 0
              (MassOrb.mk "orb1" Vec3.zero Vec3.zero "P" 1 1 "white" 0 30000)
              [mkPlayer "P" "pat" Vec3.zero 8 2]
            = ([mkPlayer "P" "pat" Vec3.zero 8 2], false, []))
    ∧ ((1000 : ℚ)
          ≤ 0 - (MassOrb.mk "orb1" Vec3.zero Vec3.zero "P" 1 1 "white" 0 30000).creationTime →
        PhysicsSystem.sphereCollision
            (MassOrb.mk "orb1" Vec3.zero Vec3.zero "P" 1 1 "white" 0 30000).position
            (MassOrb.mk "orb1" Vec3.zero Vec3.zero "P" 1 1 "white" 0 30000).radius
            (mkPlayer "P" "pat" Vec3.zero 8 2).position
            (mkPlayer "P" "pat" Vec3.zero 8 2).radius = true →
          GameServer.checkMassPlayerCollisions jm0 0
              (MassOrb.mk "orb1" Vec3.zero Vec3.zero "P" 1 1 "white" 0 30000)
              (mkPlayer "P" "pat" Vec3.zero 8 2 :: [])
            = (ServerPlayer.grow jm0
                  (MassOrb.mk "orb1" Vec3.zero Vec3.zero "P" 1 1 "white" 0 30000).mass
                  (mkPlayer "P" "pat" Vec3.zero 8 2) :: [], true,
               [Event.massConsumed
                  (MassOrb.mk "orb1" Vec3.zero Vec3.zero "P" 1 1 "white" 0 30000).id]))) :=
  ⟨rfl,
   c8_self_immunity_window jm0 0 (MassOrb.mk "orb1" Vec3.zero Vec3.zero "P" 1 1 "white" 0 30000)
     [mkPlayer "P" "pat" Vec3.zero 8 2] [] (mkPlayer "P" "pat" Vec3.zero 8 2) rfl⟩

/-- The inner pair scan never adds or removes players. -/
theorem innerPairScan_length (jm : JsMath) :
    ∀ (l : List ServerPlayer) (p1 : ServerPlayer),
      (PhysicsSystem.innerPairScan jm p1 l).2.1.length = l.length := by
  intro l
  induction l with
  | nil => intro p1; rfl
  | cons p2 rest ih =>
    intro p1
    simp only [PhysicsSystem.innerPairScan]
    split
    · split
      · simp
      · split
        · simp
        · simp [ih]
    · simp [ih]

/-- The outer collision loop never adds or removes players. -/
theorem checkPlayerCollisionsAux_length (jm : JsMath) :
    ∀ (fuel : ℕ) (l : List ServerPlayer),
      (PhysicsSystem.checkPlayerCollisionsAux jm fuel l).1.length = l.length := by
  intro fuel
  induction fuel with
  | zero =>
    intro l
    cases l <;> rfl
  | succ fuel ih =>
    intro l
    cases l with
    | nil => rfl
    | cons p1 rest =>
      simp only [PhysicsSystem.checkPlayerCollisionsAux]
      cases hev : (PhysicsSystem.innerPairScan jm p1 rest).2.2 with
      | some e => simp [innerPairScan_length]
      | none => simp [ih, innerPairScan_length]

theorem checkPlayerCollisions_length (jm : JsMath) (players : List ServerPlayer) :
    (PhysicsSystem.checkPlayerCollisions jm players).1.length = players.length :=
  checkPlayerCollisionsAux_length jm players.length players

theorem updateLoop_length (jm : JsMath) (ws : Vec3) (dt : ℚ) (foods : List ServerFood) :
    ∀ l : List ServerPlayer,
      (PhysicsSystem.updateLoop jm ws dt foods l).1.length = l.length := by
  intro l
  induction l with
  | nil => rfl
  | cons p rest ih =>
    simp only [PhysicsSystem.updateLoop]
    simp [ih]

theorem physicsUpdate_length (jm : JsMath) (ws : Vec3) (dt : ℚ)
    (players : List ServerPlayer) (foods : List ServerFood) :
    (PhysicsSystem.update jm ws dt players foods).1.length = players.length := by
  simp only [PhysicsSystem.update, PhysicsSystem.checkPlayerCollisions]
  rw [checkPlayerCollisionsAux_length, updateLoop_length]

/-- The orb-vs-players scan never adds or removes players. -/
theorem checkMass_players_length (jm : JsMath) (now : ℚ) (orb : MassOrb) :
    ∀ l : List ServerPlayer,
      (GameServer.checkMassPlayerCollisions jm now orb l).1.length = l.length := by
  intro l
  induction l with
  | nil => rfl
  | cons p rest ih =>
    simp only [GameServer.checkMassPlayerCollisions]
    split
    · simp [ih]
    · split
      · simp
      · simp [ih]

/-- The mass-orb update never adds or removes players. -/
theorem updateMassOrbsLoop_players_length (jm : JsMath) (dt now : ℚ) :
    ∀ (orbs : List MassOrb) (players : List ServerPlayer),
      (GameServer.updateMassOrbsLoop jm dt now orbs players).2.1.length
        = players.length := by
  intro orbs
  induction orbs with
  | nil => intro players; rfl
  | cons orb rest ih =>
    intro players
    simp only [GameServer.updateMassOrbsLoop]
    split
    · exact ih players
    · split
      · simp [ih, checkMass_players_length]
      · simp [ih, checkMass_players_length]

/-- A map deletion removes at most one entry. -/
theorem mapDelete_length (l : List ServerPlayer) (pid : String) :
    l.length ≤ (mapDelete l pid).length + 1 := by
  induction l with
  | nil => simp [mapDelete]
  | cons p rest ih =>
    simp only [mapDelete, List.eraseP_cons] at ih ⊢
    cases hc : (p.id == pid) with
    | true => simp
    | false =>
      simp only [cond_false, List.length_cons]
      omega

/-- Food-consumption notices are never `playerConsumed`. -/
theorem foodEvents_no_playerConsumed (consumed : List ConsumedFood) :
    (consumed.map (fun c => Event.foodConsumed c.foodId c.playerId)).countP
      Event.isPlayerConsumed = 0 := by
  induction consumed with
  | nil => rfl
  | cons c rest ih => simp [List.countP_cons, Event.isPlayerConsumed, ih]

/-- The orb-vs-players scan emits no `playerConsumed` notice. -/
theorem checkMass_events_no_playerConsumed (jm : JsMath) (now : ℚ) (orb : MassOrb) :
    ∀ l : List ServerPlayer,
      ((GameServer.checkMassPlayerCollisions jm now orb l).2.2).countP
        Event.isPlayerConsumed = 0 := by
  intro l
  induction l with
  | nil => rfl
  | cons p rest ih =>
    simp only [GameServer.checkMassPlayerCollisions]
    split
    · simpa using ih
    · split
      · simp [List.countP_cons, Event.isPlayerConsumed]
      · simpa using ih

/-- The mass-orb update emits no `playerConsumed` notice. -/
theorem updateMassOrbsLoop_events_no_playerConsumed (jm : JsMath) (dt now : ℚ) :
    ∀ (orbs : List MassOrb) (players : List ServerPlayer),
      ((GameServer.updateMassOrbsLoop jm dt now orbs players).2.2).countP
        Event.isPlayerConsumed = 0 := by
  intro orbs
  induction orbs with
  | nil => intro players; rfl
  | cons orb rest ih =>
    intro players
    simp only [GameServer.updateMassOrbsLoop]
    split
    · exact ih _
    · split
      · simp [List.countP_append, ih, checkMass_events_no_playerConsumed]
      · simp [List.countP_append, ih, checkMass_events_no_playerConsumed]

/-- The prey-removal step removes at most one player and emits at most one
`playerConsumed` notice, whatever the collision pass returned. -/
theorem consumeStep_bounds (res : List ServerPlayer × Option (String × String)) :
    res.1.length ≤ ((match res.2 with
        | some pair => (mapDelete res.1 pair.2, [Event.playerConsumed pair.1 pair.2])
        | none => (res.1, ([] : List Event))).1).length + 1
  ∧ ((match res.2 with
        | some pair => (mapDelete res.1 pair.2, [Event.playerConsumed pair.1 pair.2])
        | none => (res.1, ([] : List Event))).2).countP Event.isPlayerConsumed ≤ 1 := by
  obtain ⟨ps, ev⟩ := res
  cases ev with
  | none => exact ⟨by simp, by simp⟩
  | some pair =>
    refine ⟨by simpa using mapDelete_length ps pair.2, ?_⟩
    simp [List.countP_cons, Event.isPlayerConsumed]

/-- C10: a full tick removes at most one player through player-vs-player
consumption and emits at most one `playerConsumed` event, even when several
qualifying predator-prey pairs overlap: the collision pass returns only the
first consumption it finds, and `GameServer.update` deletes exactly that
prey. -/
theorem c10_at_most_one_consumption_per_tick (jm : JsMath) (spawner : ℕ → ServerFood)
    (deltaTime now : ℚ) (st : GameState) :
    st.players.length
        ≤ (GameServer.update jm spawner deltaTime now st).1.players.length + 1
  ∧ (GameServer.update jm spawner deltaTime now st).2.countP
      Event.isPlayerConsumed ≤ 1 := by
  simp only [GameServer.update]
  have hlen : (PhysicsSystem.checkPlayerCollisions jm
      (PhysicsSystem.update jm GameServer.worldSize deltaTime
        (st.players.map (GameServer.survivalScore deltaTime)) st.foods).1).1.length
      = st.players.length := by
    rw [checkPlayerCollisions_length, physicsUpdate_length, List.length_map]
  constructor
  · rw [updateMassOrbsLoop_players_length]
    rw [← hlen]
    exact (consumeStep_bounds _).1
  · rw [List.countP_append, List.countP_append, foodEvents_no_playerConsumed,
      updateMassOrbsLoop_events_no_playerConsumed]
    have h := (consumeStep_bounds (PhysicsSystem.checkPlayerCollisions jm
      (PhysicsSystem.update jm GameServer.worldSize deltaTime
        (st.players.map (GameServer.survivalScore deltaTime)) st.foods).1)).2
    omega

/-- Witness for C9 at a concrete player of mass 1. -/
theorem c9_split_below_threshold_witness :
    mapGet [mkPlayer "P" "pat" Vec3.zero 1 1] "P" = some (mkPlayer "P" "pat" Vec3.zero 1 1)
  ∧ (mkPlayer "P" "pat" Vec3.zero 1 1).mass < 2
  ∧ (GameServer.handlePlayerSplit jm0 ⟨0, 0, -1⟩ "F" [mkPlayer "P" "pat" Vec3.zero 1 1] "P"
        = ([mkPlayer "P" "pat" Vec3.zero 1 1], [])
      ∧ ServerPlayer.split jm0 ⟨0, 0, -1⟩ "F" (mkPlayer "P" "pat" Vec3.zero 1 1)
        = (mkPlayer "P" "pat" Vec3.zero 1 1, none)) :=
  ⟨rfl, by norm_num [mkPlayer],
   c9_split_below_threshold jm0 ⟨0, 0, -1⟩ "F" _ "P" _ rfl (by norm_num [mkPlayer])⟩

end Agar3d
